import Mathlib

/-!
Shallow embedding of the frame-dispatch and driver-lifecycle core of the
asimov-camera-module repository (files `src/shared/frame.rs`,
`src/shared/config.rs`, `src/shared/error.rs`, `src/shared/driver.rs`,
`src/shared/open.rs`), together with theorems settling the frozen claims
about that core.

Machine integers are modelled as `Nat` with explicit saturation where the
source uses saturating arithmetic (`u32::saturating_mul`,
`usize::saturating_mul`); `usize` is modelled as 64-bit.  Rust `Vec<u8>`
is modelled as a byte list together with an allocation identity, so that
the aliasing behaviour of `Clone` (a deep copy into a fresh allocation)
is observable in the model.
-/

namespace CameraCore

/-- Pixel format of a delivered frame (`frame.rs`, enum `PixelFormat`). -/
inductive PixelFormat where
  | Rgb8
  | Bgra8
deriving DecidableEq, Repr

/-- `PixelFormat::bytes_per_pixel` (`frame.rs` lines 15-23): 3 bytes for
`Rgb8`, 4 bytes for `Bgra8`. -/
def PixelFormat.bytes_per_pixel : PixelFormat → Nat
  | .Rgb8 => 3
  | .Bgra8 => 4

/-- Model of Rust `Vec<u8>`: an owned heap buffer.  `allocId` is the
identity of the heap allocation backing the buffer; `bytes` is its
contents.  A derived `Clone` of a `Vec` copies the bytes into a fresh
allocation, which the model makes explicit via the `allocId` field. -/
structure Vec8 where
  allocId : Nat
  bytes : List UInt8
deriving DecidableEq, Repr

/-- `Vec::len`. -/
def Vec8.len (v : Vec8) : Nat := v.bytes.length

/-- `Vec::clone`: a deep copy of the bytes into a fresh allocation
(`fresh` is the identity of the new allocation). -/
def Vec8.clone (v : Vec8) (fresh : Nat) : Vec8 :=
  { allocId := fresh, bytes := v.bytes }

/-- A single video frame (`frame.rs`, struct `Frame`): `data` owns the
pixel buffer; `width`, `height`, `stride` are `u32` values (modelled as
`Nat`, well-formed when `< 2^32`); `timestamp_ns` is `u64` best-effort,
`0` meaning unknown. -/
structure Frame where
  data : Vec8
  width : Nat
  height : Nat
  stride : Nat
  pixel_format : PixelFormat
  timestamp_ns : Nat
deriving DecidableEq, Repr

/-- `Frame::new` (`frame.rs` lines 43-58): timestamp starts at 0. -/
def Frame.new (data : Vec8) (width height stride : Nat)
    (pixel_format : PixelFormat) : Frame :=
  { data := data, width := width, height := height, stride := stride,
    pixel_format := pixel_format, timestamp_ns := 0 }

/-- `Frame::with_timestamp_ns`. -/
def Frame.with_timestamp_ns (f : Frame) (timestamp_ns : Nat) : Frame :=
  { f with timestamp_ns := timestamp_ns }

/-- The derived `Clone` for `Frame`: every field is copied; the `Vec<u8>`
field is deep-copied into a fresh allocation `fresh`. -/
def Frame.clone (f : Frame) (fresh : Nat) : Frame :=
  { f with data := f.data.clone fresh }

/-- `u32::MAX`. -/
def u32max : Nat := 2 ^ 32 - 1

/-- `u32::saturating_mul`: the product clamped to `u32::MAX`. -/
def u32SatMul (a b : Nat) : Nat := min (a * b) u32max

/-- `usize::MAX` on the 64-bit targets this crate builds for. -/
def usizeMax : Nat := 2 ^ 64 - 1

/-- `usize::saturating_mul`. -/
def usizeSatMul (a b : Nat) : Nat := min (a * b) usizeMax

/-- `Frame::validate` (`frame.rs` lines 78-88): best-effort sanity check.
Rejects zero dimensions, `stride < width.saturating_mul(bpp)` (u32
saturating), and a buffer shorter than
`(stride as usize).saturating_mul(height as usize)`. -/
def Frame.validate (f : Frame) : Bool :=
  if f.width = 0 || f.height = 0 || f.stride = 0 then
    false
  else if f.stride < u32SatMul f.width f.pixel_format.bytes_per_pixel then
    false
  else
    decide (f.data.len ≥ usizeSatMul f.stride f.height)

/-- Backend tags (`driver.rs`, enum `CameraBackend`). -/
inductive CameraBackend where
  | Android
  | Avf
  | Dshow
  | V4l2
  | Ffmpeg
deriving DecidableEq, Repr

/-- The camera error taxonomy as the dispatch layer of `driver.rs` uses
it: the variants of `error.rs` (lines 10-43) plus the `Closed` variant
that `driver.rs` line 215 constructs (`CameraError::Closed`) and that the
spec lists in the taxonomy.  Note: the enum declared in `error.rs` itself
does NOT contain `Closed`; see `cameraErrorVariantsDeclared` below, which
transcribes exactly the declared variants.  The `DriverError` source
(`Box<dyn Error>` in the source) is modelled as its display string. -/
inductive CameraError where
  | NoDriver
  | NoCamera
  | NotConfigured
  | Unsupported (reason : String)
  | InvalidConfig (reason : String)
  | Closed
  | DriverError (context : String) (source : String)
  | Other (message : String)
deriving DecidableEq, Repr

/-- The variant names of the `CameraError` enum exactly as declared in
`error.rs` lines 10-43, in declaration order. -/
def cameraErrorVariantsDeclared : List String :=
  ["NoDriver", "NoCamera", "NotConfigured", "Unsupported",
   "InvalidConfig", "DriverError", "Other"]

/-- Lifecycle and error events (`driver.rs`, enum `CameraEvent`). -/
inductive CameraEvent where
  | Started (backend : CameraBackend)
  | Stopped (backend : CameraBackend)
  | FrameDropped (backend : CameraBackend)
  | Warning (backend : CameraBackend) (message : String)
  | Error (backend : CameraBackend) (error : CameraError)
deriving DecidableEq, Repr

/-- Messages on the dispatcher's frame channel (`driver.rs`, enum
`FrameMsg`). -/
inductive FrameMsg where
  | Frame (f : CameraCore.Frame)
  | Stop
deriving DecidableEq, Repr

/-- State of an mpsc `sync_channel` as seen by a sender: either connected
with its current queued messages (FIFO), or disconnected because the
receiving side has been dropped (the worker thread exited). -/
inductive ChannelState where
  | connected (queue : List FrameMsg)
  | disconnected
deriving DecidableEq, Repr

/-- `SyncSender::try_send` on the frame channel: non-blocking bounded
send.  `cap` is the channel's capacity.  Returns the new channel state
together with the outcome: `ok`, `full` (message returned to caller,
queue unchanged), or `disconnected`. -/
inductive TrySendOutcome where
  | ok
  | full
  | disconnected
deriving DecidableEq, Repr

/-- Non-blocking bounded send of one message (`sync_channel` semantics):
succeeds iff the channel is connected and has fewer than `cap` queued
messages; never waits. -/
def trySendMsg (cap : Nat) (ch : ChannelState) (m : FrameMsg) :
    ChannelState × TrySendOutcome :=
  match ch with
  | .connected q =>
      if q.length < cap then (.connected (q ++ [m]), .ok)
      else (.connected q, .full)
  | .disconnected => (.disconnected, .disconnected)

/-- `report_drop` (`driver.rs` lines 199-201): emits a `FrameDropped`
event toward the event channel (itself a best-effort `try_send`; the
model records the emitted event). -/
def report_drop (backend : CameraBackend) : List CameraEvent :=
  [CameraEvent.FrameDropped backend]

/-- `try_send_frame` (`driver.rs` lines 203-219): non-blocking submission
of one frame.  On success the frame is queued; on a full queue the frame
is dropped and `report_drop` emits one `FrameDropped` event; on a
disconnected channel one `Error` event carrying `CameraError::Closed` is
emitted.  The call returns in every case (it never blocks and never
panics); the returned list is the sequence of events the submission path
emits toward the event channel. -/
def try_send_frame (cap : Nat) (ch : ChannelState) (backend : CameraBackend)
    (frame : Frame) : ChannelState × List CameraEvent :=
  match trySendMsg cap ch (FrameMsg.Frame frame) with
  | (ch', .ok) => (ch', [])
  | (ch', .full) => (ch', report_drop backend)
  | (ch', .disconnected) =>
      (ch', [CameraEvent.Error backend CameraError.Closed])

/-- Fold of `try_send_frame` over a list of frames with no intervening
drain, recording the events emitted by each individual submission
(one inner list per submission, in order). -/
def submitAll (cap : Nat) (backend : CameraBackend) (ch : ChannelState) :
    List Frame → ChannelState × List (List CameraEvent)
  | [] => (ch, [])
  | f :: rest =>
      let r := try_send_frame cap ch backend f
      let r2 := submitAll cap backend r.1 rest
      (r2.1, r.2 :: r2.2)

/-- One dispatch cycle of the worker loop (`driver.rs` lines 77-83): for
a frame message, every registered sink is invoked in registration order
(sink `i` is the `i`-th sink pushed by `add_sink`), each invocation
receiving `frame.clone()` — a clone whose `Vec<u8>` is deep-copied into a
fresh allocation.  `fresh` is the first unused allocation identity; the
`i`-th clone is backed by allocation `fresh + i`.  Returns the list of
(sink index, frame argument) invocations. -/
def dispatchFrame (sinkCount : Nat) (frame : Frame) (fresh : Nat) :
    List (Nat × Frame) :=
  (List.range sinkCount).map (fun i => (i, frame.clone (fresh + i)))

/-- Outcome of `rx.recv_timeout(...)` in the worker loop. -/
inductive RecvOutcome where
  | received (m : FrameMsg)
  | timeout
  | closed
deriving DecidableEq, Repr

/-- One iteration of the worker loop body (`driver.rs` lines 76-87):
on a frame message dispatch to every sink and keep running; on a `Stop`
message or a disconnected channel exit the loop; on a timeout keep
running.  Returns the sink invocations of this iteration and whether the
loop continues. -/
def workerStep (sinkCount : Nat) (fresh : Nat) :
    RecvOutcome → List (Nat × Frame) × Bool
  | .received (.Frame f) => (dispatchFrame sinkCount f fresh, true)
  | .received .Stop => ([], false)
  | .timeout => ([], true)
  | .closed => ([], false)

/-- State of a `Dispatcher` (`driver.rs` lines 52-57): the channel it
owns (`tx`/the worker's `rx`), the built capacity, the number of
registered sinks (sink `i` being the `i`-th registered), the atomic stop
flag, and the worker `JoinHandle` (`none` once taken by `stop`).  The
channel is `disconnected` exactly when the worker thread has exited and
dropped its receiver. -/
structure DispatcherState where
  capacity : Nat
  backend : CameraBackend
  ch : ChannelState
  sinkCount : Nat
  stopFlag : Bool
  join : Option Unit
deriving DecidableEq, Repr

/-- `Dispatcher::new` (`driver.rs` lines 60-99): creates a bounded
channel of capacity `capacity.max(1)`, an empty sink list, a cleared
stop flag, and spawns the worker thread (handle present). -/
def DispatcherState.new (capacity : Nat) (backend : CameraBackend) :
    DispatcherState :=
  { capacity := max capacity 1, backend := backend,
    ch := .connected [], sinkCount := 0, stopFlag := false,
    join := some () }

/-- `Dispatcher::add_sink` (`driver.rs` lines 105-109): pushes the sink
onto the end of the sink list (the new sink's index is the previous
count). -/
def DispatcherState.add_sink (d : DispatcherState) : DispatcherState :=
  { d with sinkCount := d.sinkCount + 1 }

/-- `Dispatcher::stop` (`driver.rs` lines 111-117): set the stop flag,
best-effort enqueue a `Stop` sentinel (non-blocking `try_send`, result
ignored), then take and join the worker handle if still present.  Joining
waits for the worker to exit, after which the worker's receiver is
dropped, so the channel is disconnected once the join completes. -/
def DispatcherState.stop (d : DispatcherState) : DispatcherState :=
  let d1 : DispatcherState := { d with stopFlag := true }
  let d2 : DispatcherState :=
    { d1 with ch := (trySendMsg d1.capacity d1.ch FrameMsg.Stop).1 }
  match d2.join with
  | some _ => { d2 with join := none, ch := .disconnected }
  | none => d2

/-- Requested capture parameters (`config.rs`, struct `CameraConfig`).
`fps` is an `f64`, stored and never computed with in the core. -/
structure CameraConfig where
  device : Option String
  width : Nat
  height : Nat
  fps : Float
  pixel_format : Option PixelFormat
  buffer_frames : Nat
  diagnostics : Bool

/-- `CameraConfig::default` (`config.rs` lines 16-28): 640x480 @30fps,
2-frame buffer, no diagnostics. -/
def CameraConfig.default : CameraConfig :=
  { device := none, width := 640, height := 480, fps := 30.0,
    pixel_format := none, buffer_frames := 2, diagnostics := false }

/-- `CameraConfig::new`. -/
def CameraConfig.new (width height : Nat) (fps : Float) : CameraConfig :=
  { CameraConfig.default with width := width, height := height, fps := fps }

/-- `CameraConfig::with_device`. -/
def CameraConfig.with_device (c : CameraConfig) (device : String) :
    CameraConfig :=
  { c with device := some device }

/-- `CameraConfig::with_pixel_format`. -/
def CameraConfig.with_pixel_format (c : CameraConfig) (fmt : PixelFormat) :
    CameraConfig :=
  { c with pixel_format := some fmt }

/-- `CameraConfig::with_buffer_frames` (`config.rs` lines 50-53): stores
`n.max(1)`. -/
def CameraConfig.with_buffer_frames (c : CameraConfig) (n : Nat) :
    CameraConfig :=
  { c with buffer_frames := max n 1 }

/-- `CameraConfig::with_diagnostics`. -/
def CameraConfig.with_diagnostics (c : CameraConfig) (enabled : Bool) :
    CameraConfig :=
  { c with diagnostics := enabled }

instance : DecidableEq (Except CameraError Unit)
  | .ok x, .ok y => decidable_of_iff (x = y) (by simp)
  | .ok _, .error _ => isFalse (fun h => Except.noConfusion h)
  | .error _, .ok _ => isFalse (fun h => Except.noConfusion h)
  | .error x, .error y => decidable_of_iff (x = y) (by simp)

/-- State of a `Camera` (`driver.rs` lines 130-134): the boxed driver and
the dispatcher.  The boxed driver is a trait object whose `stop()` result
is backend-defined; the model carries the outcome that call returns
(`Result<(), CameraError>` as `Except`). -/
structure CameraState where
  driverStopResult : Except CameraError Unit
  dispatcher : DispatcherState
deriving DecidableEq, Repr

/-- `Camera::stop` (`driver.rs` lines 178-182): first call the driver's
`stop()` and save its result, then unconditionally stop the dispatcher
(joining its worker thread), then return the driver's result unchanged. -/
def CameraState.stop (c : CameraState) : Except CameraError Unit × CameraState :=
  let r := c.driverStopResult
  (r, { c with dispatcher := c.dispatcher.stop })

/-- `impl Drop for Camera` (`driver.rs` lines 193-197): calls `stop()`
and discards its result. -/
def CameraState.drop (c : CameraState) : CameraState :=
  (c.stop).2

/-- Observable resource side effects of `open_camera`: how many channels
were created and how many threads were spawned. -/
structure OpenEffects where
  channelsCreated : Nat
  threadsSpawned : Nat
deriving DecidableEq, Repr

/-- `open_camera` (`open.rs` lines 5-111).  Exactly one backend (or none)
is compiled in via the `cfg_if` chain; `compiled` is that build-time
selection.  With a backend compiled in: create the event channel
(capacity 128), create the dispatcher sized by `config.buffer_frames`
(which creates the frame channel and spawns the worker thread), then
construct the backend driver — `driverOpen` is the backend-specific
outcome of `Driver::open`, carrying on success the driver whose later
`stop()` result is the payload — and wrap everything into a `Camera`.
With no backend compiled in (the final `else` branch, lines 105-109):
return `Err(CameraError::NoDriver)` having created no channel and
spawned no thread. -/
def open_camera (compiled : Option CameraBackend)
    (driverOpen : Except CameraError (Except CameraError Unit))
    (input_url : String) (config : CameraConfig) :
    Except CameraError CameraState × OpenEffects :=
  match compiled with
  | none =>
      let _ := input_url
      let _ := config
      (.error CameraError.NoDriver, { channelsCreated := 0, threadsSpawned := 0 })
  | some backend =>
      let dispatcher := DispatcherState.new config.buffer_frames backend
      let effects : OpenEffects := { channelsCreated := 2, threadsSpawned := 1 }
      match driverOpen with
      | .error e => (.error e, effects)
      | .ok driverStopResult =>
          (.ok { driverStopResult := driverStopResult,
                 dispatcher := dispatcher }, effects)

/-- Test vector from the spec: `PixelFormat::Rgb8`, width 4, height 2,
stride 12, 24-byte buffer. -/
def frame24 : Frame := Frame.new ⟨0, List.replicate 24 0⟩ 4 2 12 PixelFormat.Rgb8

/-- Test vector from the spec: the same frame with a 23-byte buffer. -/
def frame23 : Frame := Frame.new ⟨0, List.replicate 23 0⟩ 4 2 12 PixelFormat.Rgb8

/-- A `u32`-overflow frame: width and stride are both `u32::MAX`, height
is 1, format `Rgb8` (3 bytes per pixel), and the buffer holds `u32::MAX`
bytes.  Here `width * 3` overflows `u32`, so `validate`'s saturating
multiplication clamps it to `u32::MAX`. -/
def frameOverflow : Frame :=
  Frame.new ⟨0, List.replicate (2 ^ 32 - 1) 0⟩ (2 ^ 32 - 1) 1 (2 ^ 32 - 1)
    PixelFormat.Rgb8

/-- An invalid frame: plausible metadata but an empty pixel buffer, so
`validate` fails (`0 < stride * height = 24`). -/
def invalidFrame : Frame := Frame.new ⟨0, []⟩ 4 2 12 PixelFormat.Rgb8

/-- A small valid frame for dispatch scenarios: 1x2 `Rgb8`, stride 3,
6-byte buffer backed by allocation 0. -/
def sampleFrame : Frame :=
  Frame.new ⟨0, [1, 2, 3, 4, 5, 6]⟩ 1 2 3 PixelFormat.Rgb8

end CameraCore

namespace CameraCore

/-! Helper lemmas shared by the claim theorems. -/

/-- Per-sink invocation indices of one dispatch cycle: every registered
sink index appears exactly once, in registration order. -/
theorem dispatchFrame_fst (n : Nat) (f : Frame) (fresh : Nat) :
    (dispatchFrame n f fresh).map Prod.fst = List.range n := by
  simp [dispatchFrame, List.map_map, Function.comp_def]

/-- Every sink invocation of one dispatch cycle receives the submitted
frame's byte content unchanged. -/
theorem dispatchFrame_bytes (n : Nat) (f : Frame) (fresh : Nat) :
    (dispatchFrame n f fresh).map (fun p => p.2.data.bytes) =
      List.replicate n f.data.bytes := by
  simp [dispatchFrame, List.map_map, Function.comp_def, Frame.clone, Vec8.clone,
    List.map_const', List.length_range]

/-- The buffer allocations handed to the sinks of one dispatch cycle are
the consecutive fresh allocations `fresh, fresh + 1, ...` (one fresh deep
copy per sink). -/
theorem dispatchFrame_allocIds (n : Nat) (f : Frame) (fresh : Nat) :
    (dispatchFrame n f fresh).map (fun p => p.2.data.allocId) =
      (List.range n).map (fresh + ·) := by
  simp [dispatchFrame, List.map_map, Function.comp_def, Frame.clone, Vec8.clone]

/-- No two sink invocations of one dispatch cycle share a buffer
allocation. -/
theorem dispatchFrame_allocIds_nodup (n : Nat) (f : Frame) (fresh : Nat) :
    ((dispatchFrame n f fresh).map (fun p => p.2.data.allocId)).Nodup := by
  rw [dispatchFrame_allocIds]
  exact (List.nodup_range n).map (fun a b h => by omega)

/-- Dispatching preserves the frame size invariant into every sink
invocation. -/
theorem dispatchFrame_len_all (n : Nat) (f : Frame) (fresh : Nat)
    (h : f.data.len ≥ f.stride * f.height) :
    (dispatchFrame n f fresh).all
      (fun p => decide (p.2.data.len ≥ p.2.stride * p.2.height)) = true := by
  rw [List.all_eq_true]
  intro p hp
  simp only [dispatchFrame, List.mem_map, List.mem_range] at hp
  obtain ⟨i, _, rfl⟩ := hp
  simpa [Frame.clone, Vec8.clone, Vec8.len] using h

/-- Closed form of a burst of non-blocking submissions into a connected
channel with `q` already queued: the channel retains the first
`cap - q.length` frames in order, and the `i`-th submission emits no
event when it finds room (`q.length + i < cap`) and exactly one
`FrameDropped` event otherwise. -/
theorem submitAll_connected_eq (cap : Nat) (b : CameraBackend) (fs : List Frame)
    (q : List FrameMsg) :
    submitAll cap b (.connected q) fs =
      (ChannelState.connected (q ++ ((fs.take (cap - q.length)).map FrameMsg.Frame)),
       (List.range fs.length).map
         (fun i => if q.length + i < cap then [] else [CameraEvent.FrameDropped b])) := by
  induction fs generalizing q with
  | nil => simp [submitAll]
  | cons f rest ih =>
      by_cases h : q.length < cap
      · have hc : cap - q.length = (cap - (q.length + 1)) + 1 := by omega
        have hq : (q ++ [FrameMsg.Frame f]).length = q.length + 1 := by simp
        simp only [submitAll, try_send_frame, trySendMsg, if_pos h]
        rw [ih (q ++ [FrameMsg.Frame f])]
        refine Prod.ext ?_ ?_
        · simp [hc, List.take_succ_cons]
        · simp only [List.length_cons, List.range_succ_eq_map, List.map_cons, List.map_map]
          simp only [hq]
          refine congrArg₂ List.cons ?_ ?_
          · simp [h]
          · refine List.map_congr_left ?_
            intro i _
            have : q.length + 1 + i = q.length + (i + 1) := by omega
            simp [Function.comp, this, Nat.succ_eq_add_one]
      · have hc : cap - q.length = 0 := by omega
        simp only [submitAll, try_send_frame, trySendMsg, if_neg h]
        rw [ih q]
        refine Prod.ext ?_ ?_
        · simp [hc]
        · simp only [report_drop, List.length_cons, List.range_succ_eq_map, List.map_cons,
            List.map_map]
          refine congrArg₂ List.cons ?_ ?_
          · simp [h]
          · refine List.map_congr_left ?_
            intro i _
            have h1 : ¬ (q.length + (i + 1) < cap) := by omega
            have h2 : ¬ (q.length + i < cap) := by omega
            simp [Function.comp, h1, h2, Nat.succ_eq_add_one]

/-- Flattening the per-submission event lists of a burst: the excess
submissions contribute one `FrameDropped` each. -/
theorem flatten_range_ite (n cap : Nat) (x : CameraEvent) :
    ((List.range n).map (fun i => if i < cap then ([] : List CameraEvent) else [x])).flatten =
      List.replicate (n - cap) x := by
  induction n with
  | zero => simp
  | succ n ih =>
      rw [List.range_succ, List.map_append, List.flatten_append, ih]
      by_cases h : n < cap
      · have h1 : n + 1 - cap = 0 := by omega
        have h0 : n - cap = 0 := by omega
        simp [h, h1, h0]
      · have h1 : n + 1 - cap = (n - cap) + 1 := by omega
        simp [h, h1, List.replicate_succ' (n - cap) x]

/-- A dispatcher state whose worker handle was already taken, whose
channel is already disconnected and whose stop flag is already set is a
fixed point of `stop`. -/
theorem stop_of_stopped (x : DispatcherState) (hj : x.join = none)
    (hch : x.ch = ChannelState.disconnected) (hf : x.stopFlag = true) :
    x.stop = x := by
  obtain ⟨cap, b, ch, sc, fl, j⟩ := x
  simp only at hj hch hf
  subst hj hch hf
  simp [DispatcherState.stop, trySendMsg]

/-- `stop` always leaves the stop flag set. -/
theorem stop_flag (d : DispatcherState) : d.stop.stopFlag = true := by
  cases hj : d.join <;> simp [DispatcherState.stop, hj]

end CameraCore

/-- C1: the spec lists a `Closed` variant in the `CameraError` taxonomy
and says a submission on a disconnected frame channel emits an `Error`
event carrying `CameraError::Closed` instead of panicking.  The dispatch
layer (`driver.rs` lines 203-219) indeed constructs `CameraError::Closed`
for the disconnected case — modelled here, where the submission is a
total function returning the `Error Closed` event — but the `CameraError`
enum declared in `error.rs` lines 10-43 has no `Closed` variant at all
(first conjunct), so the code as written cannot compile: `error.rs`
contradicts `driver.rs` and the spec. -/
theorem c1_closed_variant :
    (CameraCore.cameraErrorVariantsDeclared.contains "Closed") = false ∧
      ∀ (cap : Nat) (b : CameraCore.CameraBackend) (f : CameraCore.Frame),
        CameraCore.try_send_frame cap CameraCore.ChannelState.disconnected b f =
          (CameraCore.ChannelState.disconnected,
            [CameraCore.CameraEvent.Error b CameraCore.CameraError.Closed]) :=
  ⟨by decide, fun _ _ _ => rfl⟩

/-- C7: with no backend compiled in, `open_camera` returns
`Err(CameraError::NoDriver)` for every device selector, config and
driver-construction outcome, creating zero channels and spawning zero
threads. -/
theorem c7_no_driver_no_side_effect :
    ∀ (driverOpen : Except CameraCore.CameraError (Except CameraCore.CameraError Unit))
      (input_url : String) (config : CameraCore.CameraConfig),
      CameraCore.open_camera none driverOpen input_url config =
        (Except.error CameraCore.CameraError.NoDriver,
          { channelsCreated := 0, threadsSpawned := 0 }) :=
  fun _ _ _ => rfl

/-- C9: `CameraConfig::with_buffer_frames(n)` stores `max n 1` (hence at
least 1), and `Dispatcher::new` builds its bounded channel with capacity
`max capacity 1` (hence at least 1); in particular a requested capacity
of 0 yields capacity 1. -/
theorem c9_capacity_min_one :
    ∀ (c : CameraCore.CameraConfig) (n cap : Nat) (b : CameraCore.CameraBackend),
      (c.with_buffer_frames n).buffer_frames = max n 1 ∧
        1 ≤ (c.with_buffer_frames n).buffer_frames ∧
        (CameraCore.DispatcherState.new cap b).capacity = max cap 1 ∧
        1 ≤ (CameraCore.DispatcherState.new cap b).capacity ∧
        (CameraCore.DispatcherState.new 0 b).capacity = 1 :=
  fun _ n cap _ =>
    ⟨rfl, Nat.le_max_right n 1, rfl, Nat.le_max_right cap 1, rfl⟩

/-- C10: `Camera::stop` saves the driver's `stop()` result, then
unconditionally stops the dispatcher — whose worker handle is therefore
taken and joined (`join = none`) — and returns the driver's result
unchanged, whether it is `Ok` or an error; `Camera::drop` performs
exactly this same cleanup, discarding the result. -/
theorem c10_camera_stop_always_stops_dispatcher :
    ∀ c : CameraCore.CameraState,
      c.stop.1 = c.driverStopResult ∧
        c.stop.2.dispatcher = c.dispatcher.stop ∧
        c.stop.2.dispatcher.join = none ∧
        c.drop = c.stop.2 := by
  intro c
  refine ⟨rfl, rfl, ?_, rfl⟩
  show c.dispatcher.stop.join = none
  unfold CameraCore.DispatcherState.stop
  cases h : ((({ c.dispatcher with stopFlag := true } : CameraCore.DispatcherState)).join) <;> simp [h]

/-- C2 counterexample: two sinks registered, one concrete valid frame
dispatched.  The submitted frame's pixel buffer is allocation 0, yet the
first sink's invocation receives a buffer backed by allocation 1 and the
second by allocation 2: no sink observes the submitted frame's underlying
buffer, and the two sinks do not observe a common buffer either — the
worker's `frame.clone()` deep-copies the `Vec<u8>` for every sink,
refuting "shared, not copied". -/
theorem c2_buffer_shared_counterexample :
    CameraCore.sampleFrame.data.allocId = 0 ∧
      (CameraCore.dispatchFrame 2 CameraCore.sampleFrame 1).map
        (fun p => p.2.data.allocId) = [1, 2] ∧
      (CameraCore.dispatchFrame 2 CameraCore.sampleFrame 1).all
        (fun p => p.2.data.allocId == CameraCore.sampleFrame.data.allocId) = false := by
  decide

/-- C2 amended: within one dispatch cycle every sink receives an
independent deep copy of the frame's pixel buffer — byte-for-byte
identical content, but a fresh allocation per sink (`Frame`'s derived
`Clone` clones the `Vec<u8>`), pairwise distinct and distinct from the
submitted frame's own buffer. -/
theorem c2_buffer_copied_per_sink :
    ∀ (n : Nat) (f : CameraCore.Frame) (fresh : Nat),
      ((CameraCore.dispatchFrame n f fresh).map (fun p => p.2.data.bytes) =
          List.replicate n f.data.bytes ∧
        ((CameraCore.dispatchFrame n f fresh).map (fun p => p.2.data.allocId)).Nodup ∧
        (f.data.allocId < fresh →
          (CameraCore.dispatchFrame n f fresh).all
            (fun p => p.2.data.allocId != f.data.allocId) = true)) := by
  intro n f fresh
  refine ⟨CameraCore.dispatchFrame_bytes n f fresh,
    CameraCore.dispatchFrame_allocIds_nodup n f fresh, fun hlt => ?_⟩
  rw [List.all_eq_true]
  intro p hp
  simp only [CameraCore.dispatchFrame, List.mem_map, List.mem_range] at hp
  obtain ⟨i, _, rfl⟩ := hp
  simp only [CameraCore.Frame.clone, CameraCore.Vec8.clone, bne_iff_ne, ne_eq]
  omega

/-- C2 witness: the amended theorem applied at two sinks, the sample
frame (buffer allocation 0) and fresh allocation counter 3. -/
theorem c2_buffer_copied_per_sink_witness :
    CameraCore.sampleFrame.data.allocId < 3 ∧
      (CameraCore.dispatchFrame 2 CameraCore.sampleFrame 3).all
        (fun p => p.2.data.allocId != CameraCore.sampleFrame.data.allocId) = true :=
  ⟨by decide, (c2_buffer_copied_per_sink 2 CameraCore.sampleFrame 3).2.2 (by decide)⟩

/-- C3: non-blocking bounded submission of a burst of frames into a
channel of capacity `cap` with nothing drained: the channel retains the
first `cap` frames in submission order; the `i`-th submission emits no
event while there is room and exactly one `FrameDropped` event once the
queue is full; in total the excess submissions emit exactly
`fs.length - cap` `FrameDropped` events, one each.  Submission is a total
function of the channel state (load-shedding, never waiting on the
consumer). -/
theorem c3_backpressure_load_shedding :
    ∀ (cap : Nat) (b : CameraCore.CameraBackend) (fs : List CameraCore.Frame),
      (CameraCore.submitAll cap b (.connected []) fs).2 =
          (List.range fs.length).map
            (fun i => if i < cap then [] else [CameraCore.CameraEvent.FrameDropped b]) ∧
        (CameraCore.submitAll cap b (.connected []) fs).1 =
          CameraCore.ChannelState.connected
            ((fs.take cap).map CameraCore.FrameMsg.Frame) ∧
        ((CameraCore.submitAll cap b (.connected []) fs).2).flatten =
          List.replicate (fs.length - cap) (CameraCore.CameraEvent.FrameDropped b) := by
  intro cap b fs
  have h := CameraCore.submitAll_connected_eq cap b fs []
  refine ⟨?_, ?_, ?_⟩
  · rw [h]; simp
  · rw [h]; simp
  · rw [h]; simp [CameraCore.flatten_range_ite]

/-- C4: dispatching one submitted frame to `n ≥ 1` registered sinks
invokes every registered sink exactly once, in registration order (the
invocation index list is exactly `[0, ..., n-1]`), and when the submitted
frame satisfies `data.len ≥ stride * height`, so does the frame received
by every sink invocation. -/
theorem c4_sinks_invoked_once_in_order :
    ∀ (n : Nat) (f : CameraCore.Frame) (fresh : Nat),
      1 ≤ n → f.data.len ≥ f.stride * f.height →
        ((CameraCore.dispatchFrame n f fresh).map Prod.fst = List.range n ∧
          (CameraCore.dispatchFrame n f fresh).all
            (fun p => decide (p.2.data.len ≥ p.2.stride * p.2.height)) = true) :=
  fun n f fresh _ h =>
    ⟨CameraCore.dispatchFrame_fst n f fresh, CameraCore.dispatchFrame_len_all n f fresh h⟩

/-- C4 witness: two sinks, the sample frame (6-byte buffer, stride 3,
height 2), fresh counter 7. -/
theorem c4_sinks_invoked_once_in_order_witness :
    1 ≤ 2 ∧
      CameraCore.sampleFrame.data.len ≥
        CameraCore.sampleFrame.stride * CameraCore.sampleFrame.height ∧
      ((CameraCore.dispatchFrame 2 CameraCore.sampleFrame 7).map Prod.fst = List.range 2 ∧
        (CameraCore.dispatchFrame 2 CameraCore.sampleFrame 7).all
          (fun p => decide (p.2.data.len ≥ p.2.stride * p.2.height)) = true) :=
  ⟨by decide, by decide,
    c4_sinks_invoked_once_in_order 2 CameraCore.sampleFrame 7 (by decide) (by decide)⟩

/-- C5 counterexample: the `u32`-overflow frame (width = stride =
`u32::MAX`, height 1, `Rgb8`, a `u32::MAX`-byte buffer) passes
`validate()` — the saturating multiplication clamps `width * 3` down to
`u32::MAX` — even though it violates the claim's mathematical condition
`stride ≥ width * bytes_per_pixel`, so the claimed if-and-only-if
characterisation of `validate()` is false at this frame. -/
theorem c5_validate_iff_counterexample :
    CameraCore.frameOverflow.validate = true ∧
      ¬(CameraCore.frameOverflow.width ≠ 0 ∧ CameraCore.frameOverflow.height ≠ 0 ∧
        CameraCore.frameOverflow.stride ≠ 0 ∧
        CameraCore.frameOverflow.stride ≥
          CameraCore.frameOverflow.width *
            CameraCore.frameOverflow.pixel_format.bytes_per_pixel ∧
        CameraCore.frameOverflow.data.len ≥
          CameraCore.frameOverflow.stride * CameraCore.frameOverflow.height) := by
  constructor
  · simp [-List.reduceReplicate, CameraCore.frameOverflow, CameraCore.Frame.validate,
      CameraCore.Frame.new, CameraCore.u32SatMul, CameraCore.usizeSatMul, CameraCore.Vec8.len,
      CameraCore.u32max, CameraCore.usizeMax, CameraCore.PixelFormat.bytes_per_pixel]
  · intro h
    have hge := h.2.2.2.1
    revert hge
    simp only [CameraCore.frameOverflow, CameraCore.Frame.new,
      CameraCore.PixelFormat.bytes_per_pixel]
    norm_num

/-- C5 amended: for every frame with `u32`-representable dimensions,
`validate()` returns true if and only if width, height and stride are all
non-zero, `stride ≥ width.saturating_mul(bytes_per_pixel)` (u32
saturating multiplication, which clamps the product to `u32::MAX`), and
`data.len() ≥ stride * height`; in particular the spec's 24-byte `Rgb8`
4x2 stride-12 frame passes `validate()` and its 23-byte variant fails. -/
theorem c5_validate_iff_saturating :
    (∀ f : CameraCore.Frame,
        f.width < 2 ^ 32 → f.height < 2 ^ 32 → f.stride < 2 ^ 32 →
          (f.validate = true ↔
            (f.width ≠ 0 ∧ f.height ≠ 0 ∧ f.stride ≠ 0 ∧
              f.stride ≥ CameraCore.u32SatMul f.width f.pixel_format.bytes_per_pixel ∧
              f.data.len ≥ f.stride * f.height))) ∧
      CameraCore.frame24.validate = true ∧ CameraCore.frame23.validate = false := by
  refine ⟨?_, by decide, by decide⟩
  intro f hw hh hs
  have h4 : f.stride * f.height ≤ 2 ^ 64 - 1 := by
    have h1 : f.stride ≤ 2 ^ 32 - 1 := by omega
    have h2 : f.height ≤ 2 ^ 32 - 1 := by omega
    calc f.stride * f.height ≤ (2 ^ 32 - 1) * (2 ^ 32 - 1) := Nat.mul_le_mul h1 h2
      _ ≤ 2 ^ 64 - 1 := by norm_num
  have husat : CameraCore.usizeSatMul f.stride f.height = f.stride * f.height := by
    show min (f.stride * f.height) (2 ^ 64 - 1) = f.stride * f.height
    exact Nat.min_eq_left h4
  by_cases hw0 : f.width = 0
  · simp [CameraCore.Frame.validate, hw0]
  · by_cases hh0 : f.height = 0
    · simp [CameraCore.Frame.validate, hh0]
    · by_cases hs0 : f.stride = 0
      · simp [CameraCore.Frame.validate, hs0]
      · by_cases hlt : f.stride < CameraCore.u32SatMul f.width f.pixel_format.bytes_per_pixel
        · simp only [CameraCore.Frame.validate]
          simp [hw0, hh0, hs0, hlt]
        · simp only [CameraCore.Frame.validate]
          simp [hw0, hh0, hs0, hlt, husat]
          intro h
          omega

/-- C5 witness: the amended equivalence applied to the 24-byte test
frame, whose dimensions are `u32`-representable. -/
theorem c5_validate_iff_saturating_witness :
    (CameraCore.frame24.width < 2 ^ 32 ∧ CameraCore.frame24.height < 2 ^ 32 ∧
        CameraCore.frame24.stride < 2 ^ 32) ∧
      (CameraCore.frame24.width ≠ 0 ∧ CameraCore.frame24.height ≠ 0 ∧
        CameraCore.frame24.stride ≠ 0 ∧
        CameraCore.frame24.stride ≥
          CameraCore.u32SatMul CameraCore.frame24.width
            CameraCore.frame24.pixel_format.bytes_per_pixel ∧
        CameraCore.frame24.data.len ≥
          CameraCore.frame24.stride * CameraCore.frame24.height) :=
  ⟨⟨by decide, by decide, by decide⟩,
    (c5_validate_iff_saturating.1 CameraCore.frame24
      (by decide) (by decide) (by decide)).mp (by decide)⟩

/-- C6: for every dispatcher state satisfying the reachability invariant
"once the worker handle has been taken the channel is disconnected"
(true of every state the implementation can produce), `stop()` leaves
the worker handle taken (`join = none`, the thread joined) and the
channel disconnected (the worker has exited), and a second `stop()` is a
complete no-op (`stop` is idempotent); consequently `Camera::stop` —
which calls `Dispatcher::stop` unconditionally — leaves the worker
joined, and calling it again does not change the dispatcher. -/
theorem c6_stop_idempotent :
    ∀ (d : CameraCore.DispatcherState) (r : Except CameraCore.CameraError Unit),
      (d.join = some () ∨ d.ch = CameraCore.ChannelState.disconnected) →
        (d.stop.join = none ∧ d.stop.ch = CameraCore.ChannelState.disconnected ∧
          d.stop.stop = d.stop ∧
          (CameraCore.CameraState.mk r d).stop.2.dispatcher.join = none ∧
          ((CameraCore.CameraState.mk r d).stop.2).stop.2.dispatcher =
            (CameraCore.CameraState.mk r d).stop.2.dispatcher) := by
  intro d r hinv
  have hstop : d.stop.join = none ∧ d.stop.ch = CameraCore.ChannelState.disconnected := by
    cases hj : d.join with
    | some u =>
        simp [CameraCore.DispatcherState.stop, hj]
    | none =>
        have hch : d.ch = CameraCore.ChannelState.disconnected := by
          rcases hinv with h | h
          · rw [hj] at h; exact absurd h (by simp)
          · exact h
        simp [CameraCore.DispatcherState.stop, hj, hch, CameraCore.trySendMsg]
  have hidem : d.stop.stop = d.stop :=
    CameraCore.stop_of_stopped d.stop hstop.1 hstop.2 (CameraCore.stop_flag d)
  exact ⟨hstop.1, hstop.2, hidem, hstop.1, hidem⟩

/-- C6 witness: a freshly constructed dispatcher (capacity 2, AVF
backend, worker handle present) and an `Ok` driver-stop result. -/
theorem c6_stop_idempotent_witness :
    ((CameraCore.DispatcherState.new 2 .Avf).join = some () ∨
        (CameraCore.DispatcherState.new 2 .Avf).ch =
          CameraCore.ChannelState.disconnected) ∧
      ((CameraCore.DispatcherState.new 2 .Avf).stop.join = none ∧
        (CameraCore.DispatcherState.new 2 .Avf).stop.ch =
          CameraCore.ChannelState.disconnected ∧
        (CameraCore.DispatcherState.new 2 .Avf).stop.stop =
          (CameraCore.DispatcherState.new 2 .Avf).stop ∧
        (CameraCore.CameraState.mk (Except.ok ())
            (CameraCore.DispatcherState.new 2 .Avf)).stop.2.dispatcher.join = none ∧
        ((CameraCore.CameraState.mk (Except.ok ())
            (CameraCore.DispatcherState.new 2 .Avf)).stop.2).stop.2.dispatcher =
          (CameraCore.CameraState.mk (Except.ok ())
            (CameraCore.DispatcherState.new 2 .Avf)).stop.2.dispatcher) :=
  ⟨by decide,
    c6_stop_idempotent (CameraCore.DispatcherState.new 2 .Avf) (Except.ok ()) (by decide)⟩

/-- C8 counterexample: an invalid frame (`validate()` false: empty
buffer) submitted to a dispatcher with room in its queue is accepted and
enqueued with no event — it is NOT rejected by any `validate()` check at
the point of submission (`try_send_frame` never calls `validate`) — and
the worker then forwards it to the registered sink. -/
theorem c8_no_validate_at_submission_counterexample :
    CameraCore.invalidFrame.validate = false ∧
      CameraCore.try_send_frame 1 (.connected []) .Avf CameraCore.invalidFrame =
        (.connected [CameraCore.FrameMsg.Frame CameraCore.invalidFrame], []) ∧
      (CameraCore.workerStep 1 0
          (.received (.Frame CameraCore.invalidFrame))).1.map
        (fun p => p.2.data.bytes) = [CameraCore.invalidFrame.data.bytes] ∧
      (CameraCore.workerStep 1 0 (.received (.Frame CameraCore.invalidFrame))).2 = true := by
  decide

/-- C8 amended: the dispatch core never panics on a malformed frame
because the submission path and the worker never index into the frame's
pixel data: the events a submission emits are entirely independent of
the frame submitted (first conjunct), every submission outcome is one of
"accepted silently", "dropped with one `FrameDropped` event" or
"rejected with one `Error(Closed)` event" (second conjunct), and on any
frame message — valid or not — the worker forwards the frame's bytes to
every sink and keeps running until explicitly stopped (last conjuncts);
no `validate()` check is performed at submission. -/
theorem c8_dispatch_never_inspects_frame :
    ∀ (cap : Nat) (ch : CameraCore.ChannelState) (b : CameraCore.CameraBackend)
      (f g : CameraCore.Frame) (n fresh : Nat),
      ((CameraCore.try_send_frame cap ch b f).2 = (CameraCore.try_send_frame cap ch b g).2 ∧
        ((CameraCore.try_send_frame cap ch b f).2 = [] ∨
          (CameraCore.try_send_frame cap ch b f).2 = [CameraCore.CameraEvent.FrameDropped b] ∨
          (CameraCore.try_send_frame cap ch b f).2 =
            [CameraCore.CameraEvent.Error b CameraCore.CameraError.Closed]) ∧
        (CameraCore.workerStep n fresh (.received (.Frame f))).2 = true ∧
        (CameraCore.workerStep n fresh (.received (.Frame f))).1.map (fun p => p.2.data.bytes) =
          List.replicate n f.data.bytes) := by
  intro cap ch b f g n fresh
  refine ⟨?_, ?_, rfl, CameraCore.dispatchFrame_bytes n f fresh⟩
  · cases ch with
    | connected q =>
        by_cases h : q.length < cap <;>
          simp [CameraCore.try_send_frame, CameraCore.trySendMsg, h]
    | disconnected => rfl
  · cases ch with
    | connected q =>
        by_cases h : q.length < cap <;>
          simp [CameraCore.try_send_frame, CameraCore.trySendMsg, CameraCore.report_drop, h]
    | disconnected =>
        right; right; rfl
